import Mathlib

/-!
Shallow embedding of `dbt/adapters/clickhouse/connections.py`
(dbt-clickhouse adapter: credential validation, connection lifecycle,
exception translation, statement execution, result materialization),
with theorems settling the specification claims.

External collaborators (the `clickhouse_driver.Client` network layer, the
base-class `release` method, dbt's comment rewriter and agate helpers) are
modelled as explicit parameters or, where the spec describes them, as
definitions marked `Modelled from the spec:`.
-/

set_option autoImplicit false

namespace DbtClickhouse

/-- Values that can appear in a result row (the driver returns Python
objects; the claims only need integers and strings). -/
inductive PyVal where
  | int (n : Int)
  | str (s : String)
deriving DecidableEq, Repr

/-- The exception classes that appear in `connections.py`, with the
class-hierarchy facts the code branches on:
`serverException` and `driverError` are the driver's `errors.ServerException`
and any other `errors.Error`; the four dbt constructors are all subclasses of
`dbt.exceptions.RuntimeException`.  `str(e)` of a driver exception is
modelled as its carried `text`. -/
inductive Exc where
  | serverException (text : String)
  | driverError (text : String)
  | databaseException (text : String)
  | failedToConnect (text : String)
  | runtimeExceptionStr (text : String)
  | runtimeExceptionExc (inner : Exc)
  | otherError (text : String)
deriving DecidableEq, Repr

/-- Python `str.strip()` with no argument: drop leading and trailing
whitespace. -/
def pyStrip (s : String) : String :=
  ⟨((s.data.dropWhile Char.isWhitespace).reverse.dropWhile Char.isWhitespace).reverse⟩

/-- Python `isinstance(e, clickhouse_driver.errors.Error)`:
`ServerException` is a subclass of `errors.Error`. -/
def Exc.isDriverError : Exc → Bool
  | .serverException _ => true
  | .driverError _ => true
  | _ => false

/-- Python `isinstance(e, dbt.exceptions.RuntimeException)`:
`DatabaseException` and `FailedToConnectException` are subclasses of
`RuntimeException`. -/
def Exc.isDbtRuntimeException : Exc → Bool
  | .databaseException _ => true
  | .failedToConnect _ => true
  | .runtimeExceptionStr _ => true
  | .runtimeExceptionExc _ => true
  | _ => false

/-- A raised exception together with its explicit cause
(Python `raise X from e` sets `cause := some e`; a plain `raise` keeps
`cause := none` in this model, meaning "unchanged"). -/
structure Raised where
  exc : Exc
  cause : Option Exc
deriving DecidableEq, Repr

/-! ## Credential Descriptor (`ClickhouseCredentials`) -/

/-- The `@dataclass ClickhouseCredentials` fields, with the source defaults. -/
structure ClickhouseCredentials where
  host : String := "localhost"
  port : Option Nat := none
  user : Option String := some "default"
  database : Option String := none
  schema : Option String := some "default"
  password : String := ""
  cluster : Option String := none
  secure : Bool := false
  verify : Bool := false
  connect_timeout : Nat := 10
  send_receive_timeout : Nat := 300
  sync_request_timeout : Nat := 5
  compress_block_size : Nat := 1048576
  compression : String := ""
deriving DecidableEq, Repr

/-- Python `str()` applied to an `Optional[str]` inside an f-string:
`None` prints as `"None"`, a string prints as itself. -/
def pyStrOpt : Option String → String
  | none => "None"
  | some s => s

/-- The f-string message built by `ClickhouseCredentials.__post_init__`
when `database` conflicts with `schema`. -/
def post_init_error_msg (c : ClickhouseCredentials) : String :=
  "    schema: " ++ pyStrOpt c.schema ++ " \n" ++
  "    database: " ++ pyStrOpt c.database ++ " \n" ++
  "    cluster: " ++ pyStrOpt c.cluster ++ " \n" ++
  "On Clickhouse, database must be omitted or have the same value as" ++
  " schema."

/-- Embeds `ClickhouseCredentials.__post_init__`: raises
`dbt.exceptions.RuntimeException` when `database` is present and differs
from `schema`; otherwise collapses `database` to `None`. -/
def post_init (c : ClickhouseCredentials) : Except Exc ClickhouseCredentials :=
  if c.database.isSome ∧ c.database ≠ c.schema then
    .error (.runtimeExceptionStr (post_init_error_msg c))
  else
    .ok { c with database := none }

/-! ## Connection Handle and `open` -/

/-- The `compression=` argument actually handed to the driver:
Python `False if credentials.compression == '' else credentials.compression`. -/
inductive PyCompression where
  | pyFalse
  | pyStr (s : String)
deriving DecidableEq, Repr

/-- The argument record of the `clickhouse_driver.Client(...)` constructor
call in `open` (the driver itself is an external collaborator; we record
exactly what the adapter passes to it). -/
structure Client where
  host : String
  port : Option Nat
  database : String
  user : Option String
  password : String
  client_name : String
  secure : Bool
  verify : Bool
  connect_timeout : Nat
  send_receive_timeout : Nat
  sync_request_timeout : Nat
  compress_block_size : Nat
  compression : PyCompression
deriving DecidableEq, Repr

/-- The `Client(...)` call inside `open`, argument for argument.
`dbt_version` is the imported `dbt.version.__version__`, a parameter here.
Note the source passes the literal `'default'` as `database`. -/
def mkClient (credentials : ClickhouseCredentials) (dbt_version : String) : Client :=
  { host := credentials.host
    port := credentials.port
    database := "default"
    user := credentials.user
    password := credentials.password
    client_name := "dbt-" ++ dbt_version
    secure := credentials.secure
    verify := credentials.verify
    connect_timeout := credentials.connect_timeout
    send_receive_timeout := credentials.send_receive_timeout
    sync_request_timeout := credentials.sync_request_timeout
    compress_block_size := credentials.compress_block_size
    compression :=
      if credentials.compression = "" then .pyFalse
      else .pyStr credentials.compression }

/-- A dbt `Connection` as `open` touches it: state string
(`'init' | 'open' | 'fail' | 'closed'`), optional driver handle,
credentials, and a name. -/
structure Connection where
  name : String
  state : String
  handle : Option Client
  credentials : ClickhouseCredentials
deriving DecidableEq, Repr

/-- Outcome of the external `Client(...)` constructor: it either succeeds
or raises `errors.ServerException` with some text. -/
inductive DriverResult where
  | success
  | serverError (text : String)
deriving DecidableEq, Repr

/-- Result of `ClickhouseConnectionManager.open`: the connection after the
call (Python mutates it in place), the exception raised if any, and whether
a `Client(...)` construction (network dial) was attempted. -/
structure OpenOutcome where
  conn : Connection
  raised : Option Raised
  dialed : Bool
deriving DecidableEq, Repr

/-- Embeds `ClickhouseConnectionManager.open` (named `openConn` because `open` is a
Lean keyword).  Already-open connections are returned unchanged; otherwise a
`Client` is constructed; on `errors.ServerException` the handle is dropped,
the state set to `'fail'`, and `FailedToConnectException(str(e))` is raised
(no `from`, and the text is not stripped). -/
def openConn (connection : Connection) (dbt_version : String)
    (driver : DriverResult) : OpenOutcome :=
  if connection.state = "open" then
    { conn := connection, raised := none, dialed := false }
  else
    match driver with
    | .success =>
        { conn := { connection with
                      handle := some (mkClient connection.credentials dbt_version)
                      state := "open" }
          raised := none
          dialed := true }
    | .serverError text =>
        { conn := { connection with handle := none, state := "fail" }
          raised := some { exc := .failedToConnect text, cause := none }
          dialed := true }

/-- Constructing the credentials and then opening a connection with them:
used to state that an invalid schema/database combination never reaches a
connection attempt. -/
structure PipelineOutcome where
  raised : Option Exc
  dialed : Bool
  conn : Option Connection
deriving DecidableEq, Repr

/-- Build credentials (running `__post_init__`) and, if that succeeds, open
a fresh `'init'` connection with them. -/
def credentials_then_open (raw : ClickhouseCredentials) (name : String)
    (dbt_version : String) (driver : DriverResult) : PipelineOutcome :=
  match post_init raw with
  | .error e => { raised := some e, dialed := false, conn := none }
  | .ok c =>
      let o := openConn
        { name := name, state := "init", handle := none, credentials := c }
        dbt_version driver
      { raised := (o.raised.map Raised.exc), dialed := o.dialed, conn := some o.conn }

/-! ## Exception Translator (`exception_handler`) -/

/-- What `exception_handler` produced: either the wrapped value or a raised
exception, plus whether `self.release()` was called. -/
structure HandlerOutcome (α : Type) where
  value : Except Raised α
  releaseAttempted : Bool

/-- Embeds `ClickhouseConnectionManager.exception_handler`.  The wrapped block's
outcome is `op`; the base-class `self.release()` is an external collaborator
whose outcome is the parameter `release`.
On `errors.ServerException`: release is attempted, a failure of the release
is swallowed only when it is an `errors.Error`, then
`DatabaseException(str(e).strip())` is raised `from e`.
On any other exception: release is called unconditionally; a
`dbt.exceptions.RuntimeException` is re-raised unchanged, anything else is
wrapped as `RuntimeException(e)` raised `from e`. -/
def exception_handler {α : Type} (op : Except Exc α)
    (release : Except Exc Unit) : HandlerOutcome α :=
  match op with
  | .ok a => { value := .ok a, releaseAttempted := false }
  | .error (.serverException text) =>
      let translated : Except Raised α :=
        .error { exc := .databaseException (pyStrip text)
                 cause := some (.serverException text) }
      match release with
      | .ok _ => { value := translated, releaseAttempted := true }
      | .error re =>
          if re.isDriverError then
            { value := translated, releaseAttempted := true }
          else
            { value := .error { exc := re, cause := none }, releaseAttempted := true }
  | .error e =>
      match release with
      | .error re =>
          { value := .error { exc := re, cause := none }, releaseAttempted := true }
      | .ok _ =>
          if e.isDbtRuntimeException then
            { value := .error { exc := e, cause := none }, releaseAttempted := true }
          else
            { value := .error { exc := .runtimeExceptionExc e, cause := some e }
              releaseAttempted := true }

/-! ## Statement Executor (`add_query`, `get_status`) -/

/-- The calls `add_query`/`execute` make on the driver handle:
`client.execute(sql)` or `client.execute(sql, with_column_types=True)`. -/
inductive ClientCall where
  | executeOnly (sql : String)
  | executeWithColumns (sql : String)
deriving DecidableEq, Repr

/-- Embeds `ClickhouseConnectionManager.get_status`: always the constant `'OK'`
(the cursor argument is ignored). -/
def get_status (_cursor : Unit) : String := "OK"

/-- Modelled from the spec: `self._add_query_comment` lives in dbt's base
`SQLConnectionManager`, not in this repository; per the spec it is a
pass-through trace/comment annotation, modelled as the identity. -/
def add_query_comment (sql : String) : String := sql

/-- Observable outcome of `add_query` on the success path: the driver calls
performed, the Python return value (`none` models Python `None`; a
`some status` would model `return status`), and whether
`get_table_from_response` was invoked. -/
structure QueryTrace where
  calls : List ClientCall
  ret : Option String
  materialized : Bool
deriving DecidableEq, Repr

/-- Embeds `ClickhouseConnectionManager.add_query` when the driver call succeeds:
rewrites the SQL through the comment hook, runs `client.execute(sql)` (no
column types, no row retrieval), computes `get_status` for logging, and
falls off the end of the function — so Python returns `None`. -/
def add_query (sql : String) : QueryTrace :=
  let sql := add_query_comment sql
  let _status := get_status ()
  { calls := [.executeOnly sql], ret := none, materialized := false }

/-! ## Result Materializer (`get_table_from_response`) -/

/-- First-match lookup in an association list (Python `d[q]` /
first occurrence wins, matching dict lookup once keys are unique). -/
def lookupAssoc {α : Type} : List (String × α) → String → Option α
  | [], _ => none
  | (k, v) :: t, q => if k = q then some v else lookupAssoc t q

/-- One insertion step of Python dict construction: if the key is already
present its value is replaced in place (keeping the key's position),
otherwise the pair is appended. -/
def pyDictInsert {α : Type} (d : List (String × α)) (k : String) (v : α) :
    List (String × α) :=
  if d.any (fun p => p.1 = k) then
    d.map (fun p => if p.1 = k then (k, v) else p)
  else
    d ++ [(k, v)]

/-- Python `dict(pairs)`: fold the pairs left to right, later values for a
repeated key overwriting earlier ones. -/
def pyDict {α : Type} (pairs : List (String × α)) : List (String × α) :=
  pairs.foldl (fun d p => pyDictInsert d p.1 p.2) []

/-- The per-row step of `get_table_from_response`:
`dict(zip(column_names, row))`. -/
def materialize_row {α : Type} (column_names : List String) (row : List α) :
    List (String × α) :=
  pyDict (column_names.zip row)

/-- The value a repeated key ends up with in `dict(pairs)`: the value of the
last pair carrying that key. -/
def lastValue {α : Type} (pairs : List (String × α)) (q : String) : Option α :=
  pairs.foldl (fun acc p => if p.1 = q then some p.2 else acc) none

/-- The agate table shape the claims speak about: ordered column names and
row-major data, where each cell is the value found for that column in the
row's mapping (`none` models agate's null for a missing key). -/
structure AgateTable (α : Type) where
  column_names : List String
  rows : List (List (Option α))
deriving DecidableEq, Repr

/-- Modelled from the spec: `dbt.clients.agate_helper.table_from_data_flat`
is dbt-core code, not in this repository.  Per the spec it produces a table
whose column order and names are preserved exactly as given and whose rows
take each column's value from the row's name-to-value mapping; an empty
`data` sequence yields a zero-row table with the declared columns intact. -/
def table_from_data_flat {α : Type} (data : List (List (String × α)))
    (column_names : List String) : AgateTable α :=
  { column_names := column_names
    rows := data.map (fun d => column_names.map (fun n => lookupAssoc d n)) }

/-- Embeds `ClickhouseConnectionManager.get_table_from_response`: project the
column names, build a `dict(zip(column_names, row))` per row, and hand the
result to `table_from_data_flat`. -/
def get_table_from_response {α : Type} (response : List (List α))
    (columns : List (String × String)) : AgateTable α :=
  let column_names := columns.map Prod.fst
  let data := response.map (fun row => materialize_row column_names row)
  table_from_data_flat data column_names

/-! ## Helper notions used by the claim statements -/

/-- Substring containment: `pat` occurs inside `hay`. -/
def strContains (hay pat : String) : Prop :=
  ∃ p s, hay = p ++ (pat ++ s)

/-! ## Claims -/

/-- C1: if the wrapped operation raises a server-side driver error
(`errors.ServerException`), the translator attempts to release the
connection; a driver-error failure of that release is swallowed, and in
either case the translator raises `DatabaseException` (the QueryError kind)
whose message is the server error text stripped of surrounding whitespace,
chained (`from e`) to the original error. -/
theorem exception_handler_server_error_translation {α : Type} (text : String)
    (release : Except Exc Unit)
    (h : release = .ok () ∨ ∃ re, release = .error re ∧ re.isDriverError = true) :
    (exception_handler (α := α) (.error (.serverException text)) release).releaseAttempted
        = true ∧
    (exception_handler (α := α) (.error (.serverException text)) release).value =
      .error { exc := .databaseException (pyStrip text)
               cause := some (.serverException text) } := by
  rcases h with h | ⟨re, hre, hdrv⟩
  · subst h
    exact ⟨rfl, rfl⟩
  · subst hre
    simp [exception_handler, hdrv]

/-- Witness for C1 at a concrete input: a server error whose text has
surrounding whitespace, with a release that itself fails with a driver
error; the secondary failure is swallowed and the stripped text is raised. -/
theorem exception_handler_server_error_translation_witness :
    (exception_handler (α := Unit)
        (.error (.serverException " bad sql "))
        (.error (.driverError "release failed"))).releaseAttempted = true ∧
    (exception_handler (α := Unit)
        (.error (.serverException " bad sql "))
        (.error (.driverError "release failed"))).value =
      .error { exc := .databaseException "bad sql"
               cause := some (.serverException " bad sql ") } :=
  exception_handler_server_error_translation " bad sql "
    (.error (.driverError "release failed"))
    (Or.inr ⟨.driverError "release failed", rfl, rfl⟩)

/-- C2: if the wrapped operation raises anything other than a server-side
driver error, the translator always calls release; when release succeeds, a
dbt `RuntimeException` (domain error kind) is re-raised unchanged, and any
other exception is wrapped in `RuntimeException` with the original as
cause. -/
theorem exception_handler_generic_error_translation {α : Type} (e : Exc)
    (hns : ∀ t, e ≠ .serverException t) (release : Except Exc Unit) :
    (exception_handler (α := α) (.error e) release).releaseAttempted = true ∧
    (release = .ok () → e.isDbtRuntimeException = true →
      (exception_handler (α := α) (.error e) release).value =
        .error { exc := e, cause := none }) ∧
    (release = .ok () → e.isDbtRuntimeException = false →
      (exception_handler (α := α) (.error e) release).value =
        .error { exc := .runtimeExceptionExc e, cause := some e }) := by
  cases e with
  | serverException t => exact absurd rfl (hns t)
  | _ =>
      cases release with
      | ok u => simp [exception_handler, Exc.isDbtRuntimeException]
      | error re => simp [exception_handler]

/-- Witness for C2 at concrete inputs: a non-driver exception is wrapped
with its cause preserved, and a domain `DatabaseException` is re-raised
unchanged. -/
theorem exception_handler_generic_error_translation_witness :
    ((exception_handler (α := Unit) (.error (.otherError "socket closed"))
        (.ok ())).releaseAttempted = true ∧
      (exception_handler (α := Unit) (.error (.otherError "socket closed"))
        (.ok ())).value =
        .error { exc := .runtimeExceptionExc (.otherError "socket closed")
                 cause := some (.otherError "socket closed") }) ∧
    (exception_handler (α := Unit) (.error (.databaseException "dup table"))
        (.ok ())).value =
      .error { exc := .databaseException "dup table", cause := none } :=
  ⟨⟨(exception_handler_generic_error_translation (.otherError "socket closed")
        (fun _ h => Exc.noConfusion h) (.ok ())).1,
    (exception_handler_generic_error_translation (.otherError "socket closed")
        (fun _ h => Exc.noConfusion h) (.ok ())).2.2 rfl rfl⟩,
    (exception_handler_generic_error_translation (.databaseException "dup table")
        (fun _ h => Exc.noConfusion h) (.ok ())).2.1 rfl rfl⟩

/-- C7: when `database` is absent or equal to `schema`, credential
construction succeeds and the resulting descriptor's `database` field is
`None`. -/
theorem post_init_collapses_database (c : ClickhouseCredentials)
    (h : c.database = none ∨ c.database = c.schema) :
    post_init c = .ok { c with database := none } ∧
    ({ c with database := none } : ClickhouseCredentials).database = none := by
  refine ⟨?_, rfl⟩
  rcases h with h | h <;> simp [post_init, h]

/-- Witness for C7 at a concrete input: `database` equal to `schema`. -/
theorem post_init_collapses_database_witness :
    post_init { schema := some "default", database := some "default" } =
      .ok { schema := some "default", database := none } ∧
    ({ schema := some "default", database := some "default",
        cluster := none } : ClickhouseCredentials).database = some "default" :=
  ⟨(post_init_collapses_database
      { schema := some "default", database := some "default" }
      (Or.inr rfl)).1, rfl⟩

/-- C8: `open` on an already-`'open'` connection returns the very same
connection (same handle, same state), raises nothing and never constructs a
driver `Client` (no network activity), for every driver behavior. -/
theorem open_idempotent_on_open (conn : Connection) (h : conn.state = "open")
    (dbt_version : String) (driver : DriverResult) :
    openConn conn dbt_version driver =
      { conn := conn, raised := none, dialed := false } := by
  simp [openConn, h]

/-- Witness for C8 at a concrete open connection. -/
theorem open_idempotent_on_open_witness :
    openConn
      { name := "c", state := "open"
        handle := some (mkClient {} "1.0.0"), credentials := {} }
      "1.0.0" (.serverError "unreachable") =
    { conn := { name := "c", state := "open"
                handle := some (mkClient {} "1.0.0"), credentials := {} }
      raised := none, dialed := false } :=
  open_idempotent_on_open
    { name := "c", state := "open"
      handle := some (mkClient {} "1.0.0"), credentials := {} }
    rfl "1.0.0" (.serverError "unreachable")

/-- C6: when `database` is present and differs from `schema`, credential
construction raises the configuration `RuntimeException` whose message
contains the actual schema, database and cluster values, and the
construct-then-open pipeline never attempts a driver connection. -/
theorem post_init_conflict_raises (c : ClickhouseCredentials)
    (hdb : c.database.isSome) (hne : c.database ≠ c.schema)
    (name dbt_version : String) (driver : DriverResult) :
    post_init c = .error (.runtimeExceptionStr (post_init_error_msg c)) ∧
    (credentials_then_open c name dbt_version driver).dialed = false ∧
    (credentials_then_open c name dbt_version driver).raised =
      some (.runtimeExceptionStr (post_init_error_msg c)) ∧
    strContains (post_init_error_msg c) (pyStrOpt c.schema) ∧
    strContains (post_init_error_msg c) (pyStrOpt c.database) ∧
    strContains (post_init_error_msg c) (pyStrOpt c.cluster) := by
  have hpi : post_init c = .error (.runtimeExceptionStr (post_init_error_msg c)) := by
    simp [post_init, hdb, hne]
  refine ⟨hpi, ?_, ?_, ?_, ?_, ?_⟩
  · simp [credentials_then_open, hpi]
  · simp [credentials_then_open, hpi]
  · exact ⟨"    schema: ",
      " \n" ++ "    database: " ++ pyStrOpt c.database ++ " \n" ++
        "    cluster: " ++ pyStrOpt c.cluster ++ " \n" ++
        "On Clickhouse, database must be omitted or have the same value as" ++
        " schema.",
      by simp [post_init_error_msg, String.append_assoc]⟩
  · exact ⟨"    schema: " ++ pyStrOpt c.schema ++ " \n" ++ "    database: ",
      " \n" ++ "    cluster: " ++ pyStrOpt c.cluster ++ " \n" ++
        "On Clickhouse, database must be omitted or have the same value as" ++
        " schema.",
      by simp [post_init_error_msg, String.append_assoc]⟩
  · exact ⟨"    schema: " ++ pyStrOpt c.schema ++ " \n" ++ "    database: " ++
        pyStrOpt c.database ++ " \n" ++ "    cluster: ",
      " \n" ++
        "On Clickhouse, database must be omitted or have the same value as" ++
        " schema.",
      by simp [post_init_error_msg, String.append_assoc]⟩

/-- Witness for C6: schema `s1`, database `s2`; construction fails before
any dial and the message carries both values and the cluster. -/
theorem post_init_conflict_raises_witness :
    post_init { schema := some "s1", database := some "s2" } =
      .error (.runtimeExceptionStr
        (post_init_error_msg { schema := some "s1", database := some "s2" })) ∧
    (credentials_then_open { schema := some "s1", database := some "s2" }
        "conn" "1.0.0" .success).dialed = false ∧
    strContains
      (post_init_error_msg { schema := some "s1", database := some "s2" }) "s1" :=
  have h := post_init_conflict_raises
    { schema := some "s1", database := some "s2" } rfl (by decide)
    "conn" "1.0.0" .success
  ⟨h.1, h.2.1, h.2.2.2.1⟩

/-- C3 counterexample: `open` raises `FailedToConnectException` with the
server text as-is; with surrounding whitespace in the server text the
raised message differs from the stripped text the claim requires. -/
theorem open_connect_error_not_stripped_counterexample :
    (openConn { name := "c", state := "init", handle := none, credentials := {} }
        "1.0.0" (.serverError " boom ")).raised =
      some { exc := .failedToConnect " boom ", cause := none } ∧
    " boom " ≠ pyStrip " boom " := by
  refine ⟨?_, by decide⟩
  rfl

/-- C3 (amended: the message is the server text verbatim, not stripped):
on a server-reported connection error, `open` sets the state to `'fail'`,
discards any partial handle, dials exactly once, and raises
`FailedToConnectException` carrying the server text unchanged. -/
theorem open_connect_error_fails (conn : Connection) (hs : conn.state ≠ "open")
    (dbt_version text : String) :
    (openConn conn dbt_version (.serverError text)).conn.state = "fail" ∧
    (openConn conn dbt_version (.serverError text)).conn.handle = none ∧
    (openConn conn dbt_version (.serverError text)).raised =
      some { exc := .failedToConnect text, cause := none } ∧
    (openConn conn dbt_version (.serverError text)).dialed = true := by
  simp [openConn, hs]

/-- Witness for the amended C3 at a concrete failed dial. -/
theorem open_connect_error_fails_witness :
    (openConn
        { name := "c", state := "init"
          handle := some (mkClient {} "1.0.0"), credentials := {} }
        "1.0.0" (.serverError "no route to host")).conn.state = "fail" ∧
    (openConn
        { name := "c", state := "init"
          handle := some (mkClient {} "1.0.0"), credentials := {} }
        "1.0.0" (.serverError "no route to host")).conn.handle = none ∧
    (openConn
        { name := "c", state := "init"
          handle := some (mkClient {} "1.0.0"), credentials := {} }
        "1.0.0" (.serverError "no route to host")).raised =
      some { exc := .failedToConnect "no route to host", cause := none } :=
  have h := open_connect_error_fails
    { name := "c", state := "init"
      handle := some (mkClient {} "1.0.0"), credentials := {} }
    (by decide) "1.0.0" "no route to host"
  ⟨h.1, h.2.1, h.2.2.1⟩

/-- C5 counterexample: with descriptor schema `s1`, the database argument
handed to the driver is the literal `'default'`, not the descriptor's
schema. -/
theorem open_ignores_schema_counterexample :
    ((openConn
        { name := "c", state := "init", handle := none
          credentials := { schema := some "s1" } }
        "1.0.0" .success).conn.handle.map Client.database) = some "default" ∧
    ((openConn
        { name := "c", state := "init", handle := none
          credentials := { schema := some "s1" } }
        "1.0.0" .success).conn.handle.map Client.database) ≠ some "s1" := by
  decide

/-- C5 (amended: the namespace passed to the driver is the literal
`'default'`, not the descriptor's schema): for a connection not already
open, `open` constructs the driver session from the descriptor's user,
password, port, TLS and timeout fields, passes `'default'` as the database,
and tags the session with a client name embedding the adapter version. -/
theorem open_passes_descriptor_fields (conn : Connection)
    (hs : conn.state ≠ "open") (dbt_version : String) :
    (openConn conn dbt_version .success).conn.handle =
      some (mkClient conn.credentials dbt_version) ∧
    (mkClient conn.credentials dbt_version).host = conn.credentials.host ∧
    (mkClient conn.credentials dbt_version).port = conn.credentials.port ∧
    (mkClient conn.credentials dbt_version).user = conn.credentials.user ∧
    (mkClient conn.credentials dbt_version).password = conn.credentials.password ∧
    (mkClient conn.credentials dbt_version).secure = conn.credentials.secure ∧
    (mkClient conn.credentials dbt_version).verify = conn.credentials.verify ∧
    (mkClient conn.credentials dbt_version).connect_timeout =
      conn.credentials.connect_timeout ∧
    (mkClient conn.credentials dbt_version).send_receive_timeout =
      conn.credentials.send_receive_timeout ∧
    (mkClient conn.credentials dbt_version).sync_request_timeout =
      conn.credentials.sync_request_timeout ∧
    (mkClient conn.credentials dbt_version).compress_block_size =
      conn.credentials.compress_block_size ∧
    (mkClient conn.credentials dbt_version).database = "default" ∧
    strContains (mkClient conn.credentials dbt_version).client_name dbt_version := by
  refine ⟨by simp [openConn, hs], rfl, rfl, rfl, rfl, rfl, rfl, rfl, rfl, rfl, rfl,
    rfl, ⟨"dbt-", "", ?_⟩⟩
  simp [mkClient]

/-- Witness for the amended C5 at a concrete descriptor. -/
theorem open_passes_descriptor_fields_witness :
    (openConn
        { name := "c", state := "init", handle := none
          credentials :=
            { host := "db1", port := some 9000, password := "pw", secure := true } }
        "1.2.3" .success).conn.handle =
      some (mkClient
        { host := "db1", port := some 9000, password := "pw", secure := true }
        "1.2.3") ∧
    (mkClient
        { host := "db1", port := some 9000, password := "pw", secure := true }
        "1.2.3").host = "db1" ∧
    strContains
      (mkClient
        { host := "db1", port := some 9000, password := "pw", secure := true }
        "1.2.3").client_name "1.2.3" :=
  have h := open_passes_descriptor_fields
    { name := "c", state := "init", handle := none
      credentials :=
        { host := "db1", port := some 9000, password := "pw", secure := true } }
    (by decide) "1.2.3"
  ⟨h.1, h.2.1, h.2.2.2.2.2.2.2.2.2.2.2.2⟩

/-- C4 counterexample: `add_query` on a successfully executed statement
returns Python `None`, not the `'OK'` status marker. -/
theorem add_query_returns_none_counterexample :
    (add_query "SELECT 1").ret = none ∧
    (add_query "SELECT 1").ret ≠ some (get_status ()) := by
  decide

/-- C4 (amended: the call computes the `'OK'` status internally but returns
`None` to the caller): a successful `add_query` issues exactly one
`client.execute(sql)` call without column types, never invokes the Result
Materializer, and returns no value. -/
theorem add_query_fire_and_forget (sql : String) :
    (add_query sql).ret = none ∧
    (add_query sql).materialized = false ∧
    (add_query sql).calls = [.executeOnly (add_query_comment sql)] ∧
    get_status () = "OK" := by
  exact ⟨rfl, rfl, rfl, rfl⟩

/-! ## Lemmas about `pyDict` (Python dict construction) -/

theorem lookupAssoc_append {α : Type} (a b : List (String × α)) (q : String) :
    lookupAssoc (a ++ b) q =
      match lookupAssoc a q with
      | some v => some v
      | none => lookupAssoc b q := by
  induction a with
  | nil => simp [lookupAssoc]
  | cons p t ih =>
      obtain ⟨k, v⟩ := p
      by_cases hk : k = q <;> simp [lookupAssoc, hk, ih]

theorem lookupAssoc_eq_none_of_forall_ne {α : Type} (d : List (String × α))
    (q : String) (h : ∀ p ∈ d, p.1 ≠ q) : lookupAssoc d q = none := by
  induction d with
  | nil => rfl
  | cons p t ih =>
      obtain ⟨k, v⟩ := p
      have hk : k ≠ q := h (k, v) (by simp)
      simp only [lookupAssoc, if_neg hk]
      exact ih (fun r hr => h r (by simp [hr]))

theorem pyDictInsert_of_forall_ne {α : Type} (d : List (String × α)) (k : String)
    (v : α) (h : ∀ p ∈ d, p.1 ≠ k) : pyDictInsert d k v = d ++ [(k, v)] := by
  have hany : d.any (fun p => p.1 = k) = false := by
    rw [List.any_eq_false]
    intro p hp
    simp only [decide_eq_true_eq]
    exact h p hp
  simp [pyDictInsert, hany]

theorem keys_update {α : Type} (d : List (String × α)) (k : String) (v : α) :
    (d.map (fun p => if p.1 = k then (k, v) else p)).map Prod.fst =
      d.map Prod.fst := by
  induction d with
  | nil => rfl
  | cons p t ih => by_cases hp : p.1 = k <;> simp [hp, ih]

theorem lookupAssoc_update_ne {α : Type} (d : List (String × α)) (k : String)
    (v : α) (q : String) (hq : q ≠ k) :
    lookupAssoc (d.map (fun p => if p.1 = k then (k, v) else p)) q =
      lookupAssoc d q := by
  induction d with
  | nil => rfl
  | cons p t ih =>
      obtain ⟨k', v'⟩ := p
      by_cases hp : k' = k
      · subst hp
        have hhead :
            (if ((k', v') : String × α).1 = k' then (k', v) else (k', v')) =
              (k', v) := by simp
        rw [List.map_cons, hhead]
        simp [lookupAssoc, Ne.symm hq, ih]
      · have hhead :
            (if ((k', v') : String × α).1 = k then (k, v) else (k', v')) =
              (k', v') := by simp [hp]
        rw [List.map_cons, hhead]
        simp [lookupAssoc, ih]

theorem lookupAssoc_update_mem {α : Type} (d : List (String × α)) (k : String)
    (v : α) (h : ∃ p ∈ d, p.1 = k) :
    lookupAssoc (d.map (fun p => if p.1 = k then (k, v) else p)) k = some v := by
  induction d with
  | nil => simp at h
  | cons p t ih =>
      obtain ⟨k', v'⟩ := p
      by_cases hp : k' = k
      · subst hp
        have hhead :
            (if ((k', v') : String × α).1 = k' then (k', v) else (k', v')) =
              (k', v) := by simp
        rw [List.map_cons, hhead]
        simp [lookupAssoc]
      · have ht : ∃ q ∈ t, q.1 = k := by
          rcases h with ⟨r, hr, hrk⟩
          rcases List.mem_cons.mp hr with h1 | h1
          · subst h1
            exact absurd hrk hp
          · exact ⟨r, h1, hrk⟩
        have hhead :
            (if ((k', v') : String × α).1 = k then (k, v) else (k', v')) =
              (k', v') := by simp [hp]
        rw [List.map_cons, hhead]
        simp [lookupAssoc, hp, ih ht]

theorem lookupAssoc_pyDictInsert {α : Type} (d : List (String × α)) (k : String)
    (v : α) (q : String) :
    lookupAssoc (pyDictInsert d k v) q =
      if k = q then some v else lookupAssoc d q := by
  by_cases hmem : d.any (fun p => p.1 = k) = true
  · rw [pyDictInsert, if_pos hmem]
    by_cases hq : k = q
    · subst hq
      rw [if_pos rfl]
      apply lookupAssoc_update_mem
      simpa using hmem
    · rw [if_neg hq, lookupAssoc_update_ne d k v q (fun h => hq h.symm)]
  · rw [pyDictInsert, if_neg hmem, lookupAssoc_append]
    have hnone : lookupAssoc d k = none := by
      apply lookupAssoc_eq_none_of_forall_ne
      intro p hp hpk
      exact hmem (List.any_eq_true.mpr ⟨p, hp, by simp [hpk]⟩)
    by_cases hq : k = q
    · subst hq
      simp [hnone, lookupAssoc]
    · cases hl : lookupAssoc d q with
      | some w => simp [hl, hq]
      | none => simp [hl, hq, lookupAssoc]

theorem foldl_pyDictInsert_append {α : Type} (pairs : List (String × α)) :
    ∀ acc : List (String × α),
      (∀ p ∈ pairs, ∀ q ∈ acc, p.1 ≠ q.1) →
      (pairs.map Prod.fst).Nodup →
      pairs.foldl (fun d p => pyDictInsert d p.1 p.2) acc = acc ++ pairs := by
  induction pairs with
  | nil => intro acc _ _; simp
  | cons p t ih =>
      obtain ⟨k, v⟩ := p
      intro acc hdisj hnd
      have hfresh : ∀ q ∈ acc, q.1 ≠ k :=
        fun q hq => (hdisj (k, v) (by simp) q hq).symm
      have hstep : pyDictInsert acc k v = acc ++ [(k, v)] :=
        pyDictInsert_of_forall_ne acc k v hfresh
      have hnotin : k ∉ t.map Prod.fst := by
        have := hnd
        simp only [List.map_cons, List.nodup_cons] at this
        exact this.1
      have hnd' : (t.map Prod.fst).Nodup := by
        have := hnd
        simp only [List.map_cons, List.nodup_cons] at this
        exact this.2
      have hdisj' : ∀ p ∈ t, ∀ q ∈ acc ++ [(k, v)], p.1 ≠ q.1 := by
        intro p hp q hq
        rcases List.mem_append.mp hq with hq | hq
        · exact hdisj p (by simp [hp]) q hq
        · have hq' : q = (k, v) := by simpa using hq
          subst hq'
          intro hpk
          exact hnotin (List.mem_map.mpr ⟨p, hp, hpk⟩)
      rw [List.foldl_cons, hstep, ih (acc ++ [(k, v)]) hdisj' hnd',
        List.append_assoc, List.singleton_append]

theorem pyDict_eq_self {α : Type} (pairs : List (String × α))
    (h : (pairs.map Prod.fst).Nodup) : pyDict pairs = pairs := by
  simpa using foldl_pyDictInsert_append pairs [] (by simp) h

theorem lookupAssoc_zip_self {α : Type} (names : List String) :
    ∀ r : List α, names.Nodup → r.length = names.length →
      names.map (fun n => lookupAssoc (names.zip r) n) = r.map some := by
  induction names with
  | nil =>
      intro r _ hlen
      rw [List.length_nil, List.length_eq_zero] at hlen
      subst hlen
      rfl
  | cons n ns ih =>
      intro r hnd hlen
      cases r with
      | nil => simp at hlen
      | cons v vs =>
          have hn : n ∉ ns := (List.nodup_cons.mp hnd).1
          have hnd' : ns.Nodup := (List.nodup_cons.mp hnd).2
          have hlen' : vs.length = ns.length := by simpa using hlen
          have htail :
              ns.map (fun m => lookupAssoc ((n, v) :: ns.zip vs) m) =
                vs.map some := by
            calc ns.map (fun m => lookupAssoc ((n, v) :: ns.zip vs) m)
                = ns.map (fun m => lookupAssoc (ns.zip vs) m) :=
                  List.map_congr_left (fun m hm => by
                    have hne : n ≠ m := fun h => hn (h ▸ hm)
                    simp [lookupAssoc, hne])
              _ = vs.map some := ih vs hnd' hlen'
          simp only [List.zip_cons_cons, List.map_cons, htail]
          simp [lookupAssoc]

/-- C9 counterexample: with two columns both named `a` and the matching-arity
row `(1, 2)`, the row dictionary collapses to a single entry holding the
later value, so the materialized first cell is `2`, not the row's first
value `1`. -/
theorem materializer_duplicate_name_counterexample :
    materialize_row ["a", "a"] [(1 : Int), 2] = [("a", 2)] ∧
    (get_table_from_response [[(1 : Int), 2]] [("a", "int"), ("a", "int")]).rows =
      [[some (2 : Int), some 2]] ∧
    [[some (2 : Int), some 2]] ≠ [[some (1 : Int), some (2 : Int)]] := by
  decide

/-- C9 (amended: for pairwise-distinct column names): for every row sequence
of matching arity, the materializer preserves the column names in order and
associates each row's i-th value with the i-th column; an empty row sequence
yields a zero-row table that still carries the declared column names. -/
theorem get_table_positional {α : Type} (columns : List (String × String))
    (response : List (List α))
    (hnd : (columns.map Prod.fst).Nodup)
    (hlen : ∀ r ∈ response, r.length = columns.length) :
    (get_table_from_response response columns).column_names =
      columns.map Prod.fst ∧
    (get_table_from_response response columns).rows =
      response.map (fun r => r.map some) := by
  refine ⟨rfl, ?_⟩
  simp only [get_table_from_response, table_from_data_flat, List.map_map]
  apply List.map_congr_left
  intro r hr
  have hlenr : r.length = (columns.map Prod.fst).length := by
    simpa using hlen r hr
  have hkeys :
      ((columns.map Prod.fst).zip r).map Prod.fst = columns.map Prod.fst :=
    List.map_fst_zip _ _ (le_of_eq hlenr.symm)
  have hmat :
      materialize_row (columns.map Prod.fst) r = (columns.map Prod.fst).zip r := by
    rw [materialize_row, pyDict_eq_self]
    rw [hkeys]
    exact hnd
  simp only [Function.comp_def, hmat]
  have hz := lookupAssoc_zip_self (columns.map Prod.fst) r hnd hlenr
  simpa [List.map_map, Function.comp_def] using hz

/-- Witness for the amended C9: the round-trip example from the spec,
columns `id`/`name` with rows `(1, a)` and `(2, b)`. -/
theorem get_table_positional_witness :
    (get_table_from_response
        [[PyVal.int 1, PyVal.str "a"], [PyVal.int 2, PyVal.str "b"]]
        [("id", "int"), ("name", "string")]).column_names = ["id", "name"] ∧
    (get_table_from_response
        [[PyVal.int 1, PyVal.str "a"], [PyVal.int 2, PyVal.str "b"]]
        [("id", "int"), ("name", "string")]).rows =
      [[some (PyVal.int 1), some (PyVal.str "a")],
        [some (PyVal.int 2), some (PyVal.str "b")]] :=
  get_table_positional [("id", "int"), ("name", "string")]
    [[PyVal.int 1, PyVal.str "a"], [PyVal.int 2, PyVal.str "b"]]
    (by decide) (by decide)

theorem length_pyDictInsert_le {α : Type} (d : List (String × α)) (k : String)
    (v : α) : (pyDictInsert d k v).length ≤ d.length + 1 := by
  rw [pyDictInsert]
  split
  · simp
  · simp

theorem length_pyDictInsert_of_mem {α : Type} (d : List (String × α)) (k : String)
    (v : α) (h : d.any (fun p => p.1 = k) = true) :
    (pyDictInsert d k v).length = d.length := by
  rw [pyDictInsert, if_pos h, List.length_map]

theorem foldl_pyDictInsert_length_le {α : Type} (pairs : List (String × α)) :
    ∀ acc : List (String × α),
      (pairs.foldl (fun d p => pyDictInsert d p.1 p.2) acc).length ≤
        acc.length + pairs.length := by
  induction pairs with
  | nil => intro acc; simp
  | cons p t ih =>
      intro acc
      rw [List.foldl_cons]
      have h1 := ih (pyDictInsert acc p.1 p.2)
      have h2 := length_pyDictInsert_le acc p.1 p.2
      simp only [List.length_cons]
      omega

theorem foldl_pyDictInsert_length_lt {α : Type} (pairs : List (String × α)) :
    ∀ acc : List (String × α),
      (acc.map Prod.fst).Nodup →
      ¬ (acc.map Prod.fst ++ pairs.map Prod.fst).Nodup →
      (pairs.foldl (fun d p => pyDictInsert d p.1 p.2) acc).length <
        acc.length + pairs.length := by
  induction pairs with
  | nil =>
      intro acc hacc hbad
      exact absurd (by simpa using hacc) hbad
  | cons p t ih =>
      obtain ⟨k, v⟩ := p
      intro acc hacc hbad
      rw [List.foldl_cons]
      by_cases hmem : acc.any (fun q => q.1 = k) = true
      · have hle := foldl_pyDictInsert_length_le t (pyDictInsert acc k v)
        have hlen := length_pyDictInsert_of_mem acc k v hmem
        simp only [List.length_cons]
        omega
      · have hnotin : ∀ q ∈ acc, q.1 ≠ k := by
          intro q hq hqk
          exact hmem (List.any_eq_true.mpr ⟨q, hq, by simp [hqk]⟩)
        have hstep : pyDictInsert acc k v = acc ++ [(k, v)] :=
          pyDictInsert_of_forall_ne acc k v hnotin
        have hkfresh : k ∉ acc.map Prod.fst := by
          intro hk
          rcases List.mem_map.mp hk with ⟨q, hq, hqk⟩
          exact hnotin q hq hqk
        have hacc' : ((acc ++ [(k, v)]).map Prod.fst).Nodup := by
          rw [List.map_append]
          rw [List.nodup_append]
          refine ⟨hacc, List.nodup_singleton k, ?_⟩
          intro a ha hb
          have hb' : a = k := by simpa using hb
          subst hb'
          exact hkfresh ha
        have hbad' :
            ¬ (((acc ++ [(k, v)]).map Prod.fst) ++ t.map Prod.fst).Nodup := by
          intro hnd
          apply hbad
          rw [List.map_append] at hnd
          rw [List.append_assoc] at hnd
          simpa using hnd
        have hrec := ih (acc ++ [(k, v)]) hacc' hbad'
        rw [hstep]
        simp only [List.length_append, List.length_cons, List.length_nil] at hrec ⊢
        omega

theorem lookupAssoc_foldl_pyDict {α : Type} (pairs : List (String × α)) :
    ∀ (acc : List (String × α)) (q : String),
      lookupAssoc (pairs.foldl (fun d p => pyDictInsert d p.1 p.2) acc) q =
        pairs.foldl (fun o p => if p.1 = q then some p.2 else o)
          (lookupAssoc acc q) := by
  induction pairs with
  | nil => intro acc q; rfl
  | cons p t ih =>
      obtain ⟨k, v⟩ := p
      intro acc q
      rw [List.foldl_cons, List.foldl_cons, ih]
      congr 1
      rw [lookupAssoc_pyDictInsert]

theorem lookupAssoc_pyDict_eq_lastValue {α : Type} (pairs : List (String × α))
    (q : String) : lookupAssoc (pyDict pairs) q = lastValue pairs q := by
  simpa [pyDict, lastValue, lookupAssoc] using lookupAssoc_foldl_pyDict pairs [] q

/-- C10: when the declared column names contain a duplicate, the row
dictionary built by the materializer collapses the duplicated columns into
one entry: it has strictly fewer entries than the declared column list, so
the entry-count-equals-column-count invariant fails, and the value found
under any name is the one of the last (later positional) pair carrying that
name. -/
theorem materialize_row_duplicate_collapse {α : Type}
    (columns : List (String × String)) (row : List α)
    (hlen : row.length = columns.length)
    (hdup : ¬ (columns.map Prod.fst).Nodup) :
    (materialize_row (columns.map Prod.fst) row).length < columns.length ∧
    (materialize_row (columns.map Prod.fst) row).length ≠ columns.length ∧
    ∀ q, lookupAssoc (materialize_row (columns.map Prod.fst) row) q =
      lastValue ((columns.map Prod.fst).zip row) q := by
  have hkeys :
      ((columns.map Prod.fst).zip row).map Prod.fst = columns.map Prod.fst :=
    List.map_fst_zip _ _ (by simp [hlen])
  have hzlen : ((columns.map Prod.fst).zip row).length = columns.length := by
    rw [List.length_zip, List.length_map, hlen, min_self]
  have hbad :
      ¬ (([] : List (String × α)).map Prod.fst ++
          ((columns.map Prod.fst).zip row).map Prod.fst).Nodup := by
    simpa [hkeys] using hdup
  have hlt := foldl_pyDictInsert_length_lt
    ((columns.map Prod.fst).zip row) [] (by simp) hbad
  rw [List.length_nil, Nat.zero_add, hzlen] at hlt
  have hlt' : (materialize_row (columns.map Prod.fst) row).length <
      columns.length := hlt
  refine ⟨hlt', Nat.ne_of_lt hlt', ?_⟩
  intro q
  exact lookupAssoc_pyDict_eq_lastValue ((columns.map Prod.fst).zip row) q

/-- Witness for C10: two columns named `a` with row `(1, 2)` materialize to
a single-entry mapping holding the later value `2`. -/
theorem materialize_row_duplicate_collapse_witness :
    (materialize_row ["a", "a"] [(1 : Int), 2]).length < 2 ∧
    lookupAssoc (materialize_row ["a", "a"] [(1 : Int), 2]) "a" =
      lastValue (["a", "a"].zip [(1 : Int), 2]) "a" ∧
    lastValue (["a", "a"].zip [(1 : Int), 2]) "a" = some 2 :=
  have h := materialize_row_duplicate_collapse [("a", "int"), ("a", "int")]
    [(1 : Int), 2] (by decide) (by decide)
  ⟨h.1, h.2.2 "a", by decide⟩

end DbtClickhouse
